import Mathlib

/-!
Verification of the SchemaCrawler-JSON → DBML converter
(`src/schemacrawler/json_dbml_converter.py`, with its sibling
`convert_schemacrawler_to_dbml.py` consulted where the claims cite it).

The embedding models decoded JSON values (the input to `convert_to_dbml`
after `json.load`) as the inductive type `PyVal`, and translates each
Python function of the converter into a Lean function of the same name.
Python truthiness, `dict.get`, `x or y`, and `==` are modelled explicitly.

Modelling notes, stated once here and referenced below:
* Decoded JSON dictionaries have unique string keys (Python's `json.loads`
  keeps the last duplicate key), so an association list with `find?`
  lookup is a faithful dictionary model.
* The auxiliary dictionaries built by the converter (`uuid_map`,
  `col_by_id`) can in Python also acquire non-string keys (from non-string
  `@uuid` values); every lookup performed on them by the converter uses a
  string (or `None`), so the embedding keys them by `String` only.
  An unhashable `@uuid` value (list/dict) would raise in the source.
* Where the source would raise a `TypeError`/`AttributeError` on
  malformed input (e.g. calling `.get`/`.strip`/`re.match` on a value of
  the wrong type, or indexing a rule list of length < 2), the embedding
  returns a neutral value; each such spot is marked with a comment.
  No claim depends on those spots.
-/

/-- A decoded JSON value, as produced by Python's `json.load`:
`None`, booleans, integers, strings, lists, and string-keyed dicts
(in insertion order). JSON floats do not occur in the fields the
converter reads and are omitted. -/
inductive PyVal where
  | none
  | bool (b : Bool)
  | int (n : Int)
  | str (s : String)
  | list (items : List PyVal)
  | dict (entries : List (String × PyVal))

/-- Python truthiness (`bool(x)`) on `PyVal`. -/
def truthy : PyVal → Bool
  | PyVal.none => false
  | PyVal.bool b => b
  | PyVal.int n => n != 0
  | PyVal.str s => s != ""
  | PyVal.list l => !l.isEmpty
  | PyVal.dict d => !d.isEmpty

/-- Python `x or y` (returns `x` when truthy, else `y`). -/
def pyOr (a b : PyVal) : PyVal := if truthy a then a else b

/-- Python `str(x)` for the scalar values the converter interpolates into
f-strings. Containers are never interpolated on the claim-relevant paths,
so their `repr` text is not modelled. -/
def pyStr : PyVal → String
  | PyVal.str s => s
  | PyVal.int n => toString n
  | PyVal.bool true => "True"
  | PyVal.bool false => "False"
  | PyVal.none => "None"
  | PyVal.list _ => ""
  | PyVal.dict _ => ""

/-- `d.get(k)` on a dict: the stored value (which may itself be `None`),
or `none` when the key is absent. On a non-dict the source would raise
`AttributeError`; the embedding returns `none`. -/
def pyGet : PyVal → String → Option PyVal
  | PyVal.dict kvs, k => (kvs.find? (fun p => p.1 == k)).map (fun p => p.2)
  | _, _ => Option.none

/-- `d.get(k)` with Python's `None` for a missing key, as a `PyVal`. -/
def getN (v : PyVal) (k : String) : PyVal := (pyGet v k).getD PyVal.none

/-- `d.get(k, default)`: the stored value when the key is present
(even if that value is `None`), else the default. -/
def getD (v : PyVal) (k : String) (d : PyVal) : PyVal := (pyGet v k).getD d

mutual
/-- Python `==` on decoded JSON values. Scalars follow Python exactly
(including `True == 1`); lists compare elementwise; dicts compare
entry lists in order, which agrees with Python's unordered dict
comparison on the unique-keyed dicts of this pipeline. The converter
only ever compares scalar fields (names and identifiers). -/
def pyEq : PyVal → PyVal → Bool
  | PyVal.none, PyVal.none => true
  | PyVal.bool a, PyVal.bool b => a == b
  | PyVal.bool a, PyVal.int n => if a then n == 1 else n == 0
  | PyVal.int n, PyVal.bool a => if a then n == 1 else n == 0
  | PyVal.int a, PyVal.int b => a == b
  | PyVal.str a, PyVal.str b => a == b
  | PyVal.list a, PyVal.list b => pyEqList a b
  | PyVal.dict a, PyVal.dict b => pyEqDict a b
  | _, _ => false

def pyEqList : List PyVal → List PyVal → Bool
  | [], [] => true
  | a :: as, b :: bs => pyEq a b && pyEqList as bs
  | _, _ => false

def pyEqDict : List (String × PyVal) → List (String × PyVal) → Bool
  | [], [] => true
  | (k1, v1) :: as, (k2, v2) :: bs => k1 == k2 && pyEq v1 v2 && pyEqDict as bs
  | _, _ => false
end

/-- Python `x in l` on a list, via `==`. -/
def pyListContains (l : List PyVal) (x : PyVal) : Bool := l.any (fun y => pyEq x y)

/-- Python `s.startswith(pre)`, character-level. -/
def strStartsWith (s pre : String) : Bool := pre.data.isPrefixOf s.data

/-- Python `s.endswith(suf)`, character-level. -/
def strEndsWith (s suf : String) : Bool := suf.data.isSuffixOf s.data

/-- The whitespace stripped by Python's `str.strip()` (ASCII part; the
converter's inputs carry no exotic Unicode spaces). -/
def isPySpace (c : Char) : Bool :=
  c == ' ' || c == '\t' || c == '\n' || c == '\r' || c == '\x0b' || c == '\x0c'

/-- Python `s.strip()`. -/
def pyStrip (s : String) : String :=
  String.mk (((s.data.dropWhile isPySpace).reverse.dropWhile isPySpace).reverse)

/-- Python `s.replace(c, rep)` for a one-character pattern (the only
shape the converter uses: newline→space and quote-doubling). -/
def replaceChar (c : Char) (rep : List Char) : List Char → List Char
  | [] => []
  | d :: ds => if d == c then rep ++ replaceChar c rep ds else d :: replaceChar c rep ds

def strReplaceChar (s : String) (c : Char) (rep : String) : String :=
  String.mk (replaceChar c rep.data s.data)

/-- Source, line 13-14:
`isinstance(obj, list) and len(obj) >= 2 and isinstance(obj[0], str) and obj[0].startswith('java.util')`. -/
def is_java_container (obj : PyVal) : Bool :=
  match obj with
  | PyVal.list (PyVal.str s :: _ :: _) => strStartsWith s "java.util"
  | _ => false

/-- Source, line 16-17: `obj[1] if is_java_container(obj) else obj`
(`obj[1]` is well defined whenever `is_java_container obj` holds). -/
def unwrap (obj : PyVal) : PyVal :=
  if is_java_container obj then
    match obj with
    | PyVal.list (_ :: x :: _) => x
    | v => v
  else obj

/-- The elements of a sequence value; a non-sequence yields `[]`.
The call sites below apply this to `unwrap(...) or []`: a falsy value
becomes `[]` in the source as well, while iterating a truthy non-sequence
would raise there (never the case for the claims). -/
def asSeq : PyVal → List PyVal
  | PyVal.list l => l
  | _ => []

/-- The pervasive source idiom `unwrap(x) or []`, followed by iteration. -/
def unwrapSeq (v : PyVal) : List PyVal := asSeq (pyOr (unwrap v) (PyVal.list []))

/-- The string-keyed index built by `collect_uuid_map`. -/
abbrev UMap := String → Option PyVal

/-- One dictionary write `uuid_map[k] = v`. -/
def umUpdate (m : UMap) (k : String) (v : PyVal) : UMap :=
  fun x => if x = k then some v else m x

/-- Source, lines 21-23: `uid = obj.get('@uuid'); if uid: uuid_map[uid] = obj`,
for a dict `obj` with entries `kvs`. Only non-empty-string identifiers
are written: a falsy identifier is skipped by the source's `if uid:`,
and a truthy non-string identifier keys the Python dict under a
non-string key that no lookup in the program ever consults
(an unhashable one would raise). -/
def selfIndexed (kvs : List (String × PyVal)) (m : UMap) : UMap :=
  match pyGet (PyVal.dict kvs) "@uuid" with
  | some (PyVal.str s) => if s = "" then m else umUpdate m s (PyVal.dict kvs)
  | _ => m

/-- The write performed by `selfIndexed`, as a (possibly empty) list. -/
def selfWrite (kvs : List (String × PyVal)) : List (String × PyVal) :=
  match pyGet (PyVal.dict kvs) "@uuid" with
  | some (PyVal.str s) => if s = "" then [] else [(s, PyVal.dict kvs)]
  | _ => []

mutual
/-- Source, lines 19-28: walk the whole tree; every dict first indexes
itself (`selfIndexed`), then its values are visited in order; lists are
visited elementwise. -/
def collect_uuid_map : PyVal → UMap → UMap
  | PyVal.dict kvs, m => collectVals kvs (selfIndexed kvs m)
  | PyVal.list items, m => collectItems items m
  | _, m => m

def collectItems : List PyVal → UMap → UMap
  | [], m => m
  | x :: xs, m => collectItems xs (collect_uuid_map x m)

def collectVals : List (String × PyVal) → UMap → UMap
  | [], m => m
  | (_, v) :: kvs, m => collectVals kvs (collect_uuid_map v m)
end

mutual
/-- The sequence of `uuid_map` writes performed by `collect_uuid_map`,
in traversal order (a dict writes itself before its values are visited).
This is the "occurrence list" that the indexing claims quantify over. -/
def uuidWrites : PyVal → List (String × PyVal)
  | PyVal.dict kvs => selfWrite kvs ++ writesVals kvs
  | PyVal.list items => writesItems items
  | _ => []

def writesItems : List PyVal → List (String × PyVal)
  | [] => []
  | x :: xs => uuidWrites x ++ writesItems xs

def writesVals : List (String × PyVal) → List (String × PyVal)
  | [] => []
  | (_, v) :: kvs => uuidWrites v ++ writesVals kvs
end

/-- Replay a write list onto a map. -/
def applyW (ws : List (String × PyVal)) (m : UMap) : UMap :=
  ws.foldl (fun acc p => umUpdate acc p.1 p.2) m

/-- Source, lines 30-37. The priority chain is Python's
`o.get('name') or o.get('database-specific-type-name') or o.get('full-name') or 'varchar'`,
applied to an inline dict, or to the indexed object of an identifier
reference (`if o:` guards a falsy lookup result). Everything else
resolves to `'varchar'`. -/
def resolve_datatype (dtref : PyVal) (m : UMap) : PyVal :=
  match dtref with
  | PyVal.dict kvs =>
      pyOr (getN (PyVal.dict kvs) "name")
        (pyOr (getN (PyVal.dict kvs) "database-specific-type-name")
          (pyOr (getN (PyVal.dict kvs) "full-name") (PyVal.str "varchar")))
  | PyVal.str s =>
      match m s with
      | some o =>
          if truthy o then
            pyOr (getN o "name")
              (pyOr (getN o "database-specific-type-name")
                (pyOr (getN o "full-name") (PyVal.str "varchar")))
          else PyVal.str "varchar"
      | Option.none => PyVal.str "varchar"
  | _ => PyVal.str "varchar"

/-- First character class of `^[A-Za-z_]` (ASCII, as in Python `re`). -/
def isIdentStart (c : Char) : Bool := c.isAlpha || c == '_'

/-- Character class `[A-Za-z0-9_]` (ASCII). -/
def isIdentChar (c : Char) : Bool := c.isAlphanum || c == '_'

/-- Whether `[A-Za-z_][A-Za-z0-9_]*` matches a whole character list. -/
def identCoreChars : List Char → Bool
  | [] => false
  | c :: cs => isIdentStart c && cs.all isIdentChar

/-- Whether `[A-Za-z_][A-Za-z0-9_]*` matches the whole string. -/
def identCore (s : String) : Bool := identCoreChars s.data

/-- Python's `re.match(r'^[A-Za-z_][A-Za-z0-9_]*$', s)`: `$` matches at
the end of the string or just before a single newline that ends the
string, so `"a\n"` is accepted by the source's pattern. -/
def identRegexMatches (s : String) : Bool :=
  identCore s ||
    (match s.data.getLast? with
      | some c => c == '\n' && identCoreChars s.data.dropLast
      | Option.none => false)

/-- Source, lines 39-44. `name` is `None` or a string at every call site
(a non-string name would make `re.match` raise in the source). -/
def sanitize_identifier (name : Option String) : String :=
  match name with
  | Option.none => ""
  | some s => if identRegexMatches s then s else "`" ++ s ++ "`"

/-- The string payload of a name value handed to `sanitize_identifier`:
`None` maps to `none` (rendered `''`), strings pass through. -/
def asStrOpt : PyVal → Option String
  | PyVal.str s => some s
  | _ => Option.none

/-- Source, lines 46-50: `if val is None or val == '': return None`,
otherwise `str(val)` with newlines replaced by spaces, wrapped in
backticks. -/
def format_default (v : PyVal) : Option String :=
  match v with
  | PyVal.none => Option.none
  | v =>
      if pyEq v (PyVal.str "") then Option.none
      else some ("`" ++ strReplaceChar (pyStr v) '\n' " " ++ "`")

/-- Source, lines 52-53: `entry if isinstance(entry, dict) else uuid_map.get(entry)`.
A hashable non-string entry misses the string-keyed map; an unhashable
one would raise in the source. -/
def get_table_obj (entry : PyVal) (m : UMap) : Option PyVal :=
  match entry with
  | PyVal.dict kvs => some (PyVal.dict kvs)
  | PyVal.str s => m s
  | _ => Option.none

/-- Source, line 66: `{c.get('@uuid'): c for c in all_table_columns if isinstance(c, dict)}`,
restricted to its string keys (the only ones the converter looks up);
later entries overwrite earlier ones as in a Python dict comprehension. -/
def build_col_by_id (cols : List PyVal) : String → Option PyVal :=
  cols.foldl
    (fun acc c =>
      match c with
      | PyVal.dict kvs =>
          (match pyGet (PyVal.dict kvs) "@uuid" with
            | some (PyVal.str s) => fun x => if x = s then some (PyVal.dict kvs) else acc x
            | _ => acc)
      | _ => acc)
    (fun _ => Option.none)

/-- Source, line 71: `t.get('name') or t.get('full-name')`. -/
def tableName (t : PyVal) : PyVal := pyOr (getN t "name") (getN t "full-name")

/-- The idiom `(x or '').strip()`; a truthy non-string would raise
`.strip()` in the source (Python strips a slightly larger whitespace set
than `String.trim`; the difference never reaches a claim). -/
def pyStripStr (v : PyVal) : String :=
  match pyOr v (PyVal.str "") with
  | PyVal.str s => pyStrip s
  | _ => ""

/-- Source, line 72: `(t.get('remarks') or '').strip()`. -/
def tableNote (t : PyVal) : String := pyStripStr (getN t "remarks")

/-- Sort key `c.get('ordinal-position', 0)` (source, line 76). The claims
assume integer ordinals; non-integer ordinals would make the source's
sort comparison raise on mixed types and are modelled as `0`. -/
def colOrdinal (c : PyVal) : Int :=
  match pyGet c "ordinal-position" with
  | some (PyVal.int n) => n
  | _ => 0

/-- Source, line 75: `[col_by_id[cid] for cid in col_ids if cid in col_by_id]`
(a non-string hashable identifier is simply not a member of the
string-keyed dict; an unhashable one would raise in the source). -/
def resolved_cols (col_ids : List PyVal) (cbi : String → Option PyVal) : List PyVal :=
  col_ids.filterMap (fun cid =>
    match cid with
    | PyVal.str s => cbi s
    | _ => Option.none)

/-- Source, line 76: `cols.sort(key=lambda c: c.get('ordinal-position', 0))`.
CPython's `list.sort` is the stable ascending sort by the key; insertion
sort that places a later element after equal keys computes exactly that
list, and under the distinct-ordinal invariant assumed by the claims
every ascending sort agrees. -/
def sorted_cols (col_ids : List PyVal) (cbi : String → Option PyVal) : List PyVal :=
  List.insertionSort (fun a b => colOrdinal a ≤ colOrdinal b) (resolved_cols col_ids cbi)

/-- Source, line 74: `unwrap(t.get('columns', [])) or []`. -/
def colIdsOf (t : PyVal) : List PyVal := unwrapSeq (getD t "columns" (PyVal.list []))

/-- Source, lines 79-81 and 115-116: `pk_id = t.get('primary-key')`,
`if pk_id and pk_id in uuid_map: pk_obj = uuid_map[pk_id]`. A truthy
non-string id is never a member of the string-keyed index. -/
def pkObjOf (t : PyVal) (m : UMap) : Option PyVal :=
  match getN t "primary-key" with
  | PyVal.str s => if s = "" then Option.none else m s
  | _ => Option.none

/-- `col_by_id[cid]['name']` under the comprehension filter
`if cid in col_by_id` (lines 83, 119, 131); a column dict without a
`'name'` key would raise `KeyError` in the source, modelled as `None`. -/
def colNameOf (cbi : String → Option PyVal) (cid : PyVal) : Option PyVal :=
  match cid with
  | PyVal.str s => (cbi s).map (fun c => getN c "name")
  | _ => Option.none

/-- Source, lines 82 and 117: `unwrap(pk_obj.get('columns', [])) or []`. -/
def pkColIdsOf (t : PyVal) (m : UMap) : List PyVal :=
  match pkObjOf t m with
  | some pk_obj => unwrapSeq (getD pk_obj "columns" (PyVal.list []))
  | Option.none => []

/-- Source, lines 78-83: the primary-key column names (`pk_cols`). -/
def pkCols (t : PyVal) (m : UMap) (cbi : String → Option PyVal) : List PyVal :=
  (pkColIdsOf t m).filterMap (colNameOf cbi)

/-- Source, lines 96-98: the `default:` attribute cell (empty when
`format_default` yields nothing; a produced default string starts with a
backtick and is therefore always truthy in the source's `if dval:`). -/
def default_attr (c : PyVal) : List String :=
  match format_default (getN c "default-value") with
  | some d => ["default: " ++ d]
  | Option.none => []

/-- Source, lines 99-102: the `note:` attribute cell. -/
def note_attr (c : PyVal) : List String :=
  let note := pyStripStr (getN c "remarks")
  if note = "" then [] else ["note: \x27" ++ strReplaceChar note '\x27' "\x27\x27" ++ "\x27"]

/-- Source, lines 87-102: the column attribute list, in source order. -/
def column_attrs (c : PyVal) (pk_cols : List PyVal) : List String :=
  let cname := getN c "name"
  (if pyListContains pk_cols cname && pk_cols.length == 1 then ["pk"] else []) ++
  (if !truthy (getD c "nullable" (PyVal.bool true)) then ["not null"] else []) ++
  (if truthy (getD c "part-of-unique-index" (PyVal.bool false)) && !pyListContains pk_cols cname
    then ["unique"] else []) ++
  default_attr c ++ note_attr c

/-- Source, lines 86-104: one emitted column line. -/
def column_line (c : PyVal) (pk_cols : List PyVal) (m : UMap) : String :=
  let cname := getN c "name"
  let ctype := pyOr (resolve_datatype (getN c "column-data-type") m) (PyVal.str "varchar")
  let attrs := column_attrs c pk_cols
  let attr_str := if attrs.isEmpty then "" else " [" ++ String.intercalate ", " attrs ++ "]"
  "  " ++ sanitize_identifier (asStrOpt cname) ++ " " ++ pyStr ctype ++ attr_str

/-- Source, lines 115-121: the composite-primary-key index entry. -/
def pk_index_lines (t : PyVal) (m : UMap) (cbi : String → Option PyVal) : List String :=
  match pkObjOf t m with
  | some _ =>
      let pk_cols_ids := pkColIdsOf t m
      if pk_cols_ids.length > 1 then
        let pk_names := pk_cols_ids.filterMap (colNameOf cbi)
        ["  (" ++ String.intercalate ", " (pk_names.map (fun n => sanitize_identifier (asStrOpt n))) ++ ") [pk]"]
      else []
  | Option.none => []

/-- Source, lines 111-112: constraint ids resolving to indexed objects
whose `@class` ends in `MutableIndex`. A non-string `@class` would raise
`.endswith` in the source. -/
def index_entries (t : PyVal) (m : UMap) : List PyVal :=
  (unwrapSeq (getD t "table-constraints" (PyVal.list []))).filterMap (fun iid =>
    match iid with
    | PyVal.str s =>
        match m s with
        | some o =>
            (match getD o "@class" (PyVal.str "") with
              | PyVal.str cls => if strEndsWith cls "MutableIndex" then some o else Option.none
              | _ => Option.none)
        | Option.none => Option.none
    | _ => Option.none)

/-- Source, lines 123-133: the `indexes` entry contributed by one
constraint object, if any: skip the primary-key construct itself, skip
non-unique indexes, skip an empty column-identifier list. -/
def unique_index_line (pk_id : PyVal) (cbi : String → Option PyVal) (idx : PyVal) : Option String :=
  if pyEq (getN idx "@uuid") pk_id then Option.none
  else if !truthy (getD idx "unique" (PyVal.bool false)) then Option.none
  else
    let cols_ids := unwrapSeq (getD idx "columns" (PyVal.list []))
    if cols_ids.isEmpty then Option.none
    else
      let names := cols_ids.filterMap (colNameOf cbi)
      some ("  (" ++ String.intercalate ", " (names.map (fun n => sanitize_identifier (asStrOpt n))) ++ ") [unique]")

/-- Source, lines 123-133: all `[unique]` entries of a table. -/
def unique_index_lines (t : PyVal) (m : UMap) (cbi : String → Option PyVal) : List String :=
  (index_entries t m).filterMap (unique_index_line (getN t "primary-key") cbi)

/-- Source, lines 113-137: all `indexes` entries, composite key first. -/
def index_lines (t : PyVal) (m : UMap) (cbi : String → Option PyVal) : List String :=
  pk_index_lines t m cbi ++ unique_index_lines t m cbi

/-- Source, lines 70-140: the lines of one `Table` block — header,
columns in sorted order, optional note, optional indexes block, and the
closing line `'}\n'` (whose embedded newline yields the blank separator
after the block once the lines are joined). -/
def table_out_lines (t : PyVal) (m : UMap) (cbi : String → Option PyVal) : List String :=
  let header := "Table " ++ sanitize_identifier (asStrOpt (tableName t)) ++ " \x7b"
  let col_lines := (sorted_cols (colIdsOf t) cbi).map (fun c => column_line c (pkCols t m cbi) m)
  let note_lines :=
    if tableNote t = "" then []
    else ["  Note: \x27" ++ strReplaceChar (tableNote t) '\x27' "\x27\x27" ++ "\x27"]
  let il := index_lines t m cbi
  let idx_block := if il.isEmpty then [] else ["  indexes \x7b"] ++ il ++ ["  \x7d"]
  [header] ++ col_lines ++ note_lines ++ idx_block ++ ["\x7d\n"]

/-- Source, lines 144-147: resolve a foreign-key entry (inline dict, or
an identifier looked up in the index; other hashable entries miss the
string-keyed map). -/
def fkResolve (fk_entry : PyVal) (m : UMap) : Option PyVal :=
  match fk_entry with
  | PyVal.dict kvs => some (PyVal.dict kvs)
  | PyVal.str s => m s
  | _ => Option.none

/-- Source, lines 148-149: the referenced table's display name.
`fk.get('referenced-table', {})` keeps a present-but-null value, on
which the source's `.get('name')` would raise; modelled as `None`. -/
def fkRefTableName (fk : PyVal) (m : UMap) : PyVal :=
  let ref_table :=
    match getN fk "referenced-table" with
    | PyVal.str s => (m s).getD (PyVal.dict [])
    | _ => getD fk "referenced-table" (PyVal.dict [])
  pyOr (getN ref_table "name") (getN ref_table "full-name")

/-- Source, lines 156-157: rule extraction —
`fk.get(key, ['',''])[1] if isinstance(fk.get(key), list) else ''`.
A present rule list of length < 2 would raise `IndexError` there. -/
def ruleVal (fk : PyVal) (key : String) : PyVal :=
  match getN fk key with
  | PyVal.list l => l.getD 1 (PyVal.str "")
  | _ => PyVal.str ""

/-- Source, lines 158-163: the optional `[delete: ..., update: ...]`
suffix of a `Ref:` statement. -/
def rule_opt_str (delete_rule update_rule : PyVal) : String :=
  let opts :=
    (if truthy delete_rule then ["delete: " ++ pyStr delete_rule] else []) ++
    (if truthy update_rule then ["update: " ++ pyStr update_rule] else [])
  if opts.isEmpty then "" else " [" ++ String.intercalate ", " opts ++ "]"

/-- Source, lines 152-153: one side of a column-reference pair —
`col_by_id.get(cr.get(key), {}).get('name')`. -/
def crColName (cbi : String → Option PyVal) (cr : PyVal) (key : String) : PyVal :=
  match getN cr key with
  | PyVal.str s =>
      match cbi s with
      | some c => getN c "name"
      | Option.none => PyVal.none
  | _ => PyVal.none

/-- Source, lines 151-167: the `Ref:` line contributed by one
column-reference pair, if any: pairs with an unresolved (falsy) side are
skipped, as is a pair whose referenced table equals the owning table and
whose two column names are equal (the self-identity suppression). -/
def cr_ref_line (table_name ref_table_name delete_rule update_rule : PyVal)
    (cbi : String → Option PyVal) (cr : PyVal) : Option String :=
  let fk_col := crColName cbi cr "foreign-key-column"
  let pk_col := crColName cbi cr "primary-key-column"
  if !truthy fk_col || !truthy pk_col then Option.none
  else if pyEq ref_table_name table_name && pyEq pk_col fk_col then Option.none
  else
    some ("Ref: " ++ sanitize_identifier (asStrOpt ref_table_name) ++ "." ++
      sanitize_identifier (asStrOpt pk_col) ++ " > " ++
      sanitize_identifier (asStrOpt table_name) ++ "." ++
      sanitize_identifier (asStrOpt fk_col) ++ rule_opt_str delete_rule update_rule)

/-- Source, lines 143-167: all `Ref:` lines of one foreign-key entry
(`if not fk or not isinstance(fk, dict): continue`). -/
def fk_ref_lines (t : PyVal) (m : UMap) (cbi : String → Option PyVal) (fk_entry : PyVal) : List String :=
  match fkResolve fk_entry m with
  | some fk =>
      if !truthy fk then []
      else
        match fk with
        | PyVal.dict _ =>
            (unwrapSeq (getD fk "column-references" (PyVal.list []))).filterMap
              (cr_ref_line (tableName t) (fkRefTableName fk m)
                (ruleVal fk "delete-rule") (ruleVal fk "update-rule") cbi)
        | _ => []
  | Option.none => []

/-- Source, lines 61-63: the catalog's table list; entries resolve via
`get_table_obj` and falsy results are dropped by the comprehension's
truthiness filter. -/
def tablesOf (data : PyVal) (m : UMap) : List PyVal :=
  (unwrapSeq (getD (getD data "catalog" (PyVal.dict [])) "tables" (PyVal.list []))).filterMap
    (fun e =>
      match get_table_obj e m with
      | some v => if truthy v then some v else Option.none
      | Option.none => Option.none)

/-- Source, lines 65-66. -/
def col_by_id_of (data : PyVal) : String → Option PyVal :=
  build_col_by_id (unwrapSeq (getD data "all-table-columns" (PyVal.list [])))

/-- The source's `out_lines`: all table-block lines, in table order. -/
def dbml_out_lines (data : PyVal) : List String :=
  let m := collect_uuid_map data (fun _ => Option.none)
  ((tablesOf data m).map (fun t => table_out_lines t m (col_by_id_of data))).flatten

/-- The source's `refs`: all `Ref:` statements, in table order. -/
def dbml_ref_lines (data : PyVal) : List String :=
  let m := collect_uuid_map data (fun _ => Option.none)
  ((tablesOf data m).map (fun t =>
    ((unwrapSeq (getD t "foreign-keys" (PyVal.list []))).map
      (fk_ref_lines t m (col_by_id_of data))).flatten)).flatten

/-- Source, lines 55-169: the whole conversion,
the join of `out_lines + refs` with newlines. -/
def convert_to_dbml (data : PyVal) : String :=
  String.intercalate "\n" (dbml_out_lines data ++ dbml_ref_lines data)

/-- Pairwise-distinct ordinal positions, the spec's uniqueness invariant
("ordinal position is unique within a table"), as an executable check. -/
def distinct_ordinals : List PyVal → Bool
  | [] => true
  | c :: cs => cs.all (fun d => colOrdinal d != colOrdinal c) && distinct_ordinals cs

/-- The self-identity condition of a foreign-key entry: its referenced
table name equals the owning table's name and the two resolved column
names agree on every column-reference pair. -/
def fk_self_identity (t : PyVal) (m : UMap) (cbi : String → Option PyVal) (fk_entry : PyVal) : Bool :=
  match fkResolve fk_entry m with
  | some fk =>
      pyEq (fkRefTableName fk m) (tableName t) &&
      (unwrapSeq (getD fk "column-references" (PyVal.list []))).all
        (fun cr => pyEq (crColName cbi cr "primary-key-column") (crColName cbi cr "foreign-key-column"))
  | Option.none => true

/-! Concrete inputs used by the counterexamples and witnesses below. -/

/-- Two columns whose ordinal positions invert their list order. -/
def exCols1 : List PyVal :=
  [PyVal.dict [("@uuid", PyVal.str "u1"), ("name", PyVal.str "a"), ("ordinal-position", PyVal.int 2)],
   PyVal.dict [("@uuid", PyVal.str "u2"), ("name", PyVal.str "b"), ("ordinal-position", PyVal.int 1)]]

def exCbi1 : String → Option PyVal := build_col_by_id exCols1

def exIds1 : List PyVal := [PyVal.str "u1", PyVal.str "u2"]

def exIds1r : List PyVal := [PyVal.str "u2", PyVal.str "u1"]

/-- A table with a single-column primary key on column `a` and a distinct
unique index over that same column. -/
def exTable2 : PyVal :=
  PyVal.dict [("name", PyVal.str "t"), ("columns", PyVal.list [PyVal.str "c1"]),
              ("primary-key", PyVal.str "pk1"),
              ("table-constraints", PyVal.list [PyVal.str "i1"])]

/-- The unique index of `exData2`, over the primary key's only column. -/
def exIdx2 : PyVal :=
  PyVal.dict [("@uuid", PyVal.str "i1"),
              ("@class", PyVal.str "schemacrawler.crawl.MutableIndex"),
              ("unique", PyVal.bool true),
              ("columns", PyVal.list [PyVal.str "c1"])]

def exData2 : PyVal :=
  PyVal.dict
    [("catalog", PyVal.dict [("tables", PyVal.list [exTable2])]),
     ("all-table-columns", PyVal.list
        [PyVal.dict [("@uuid", PyVal.str "c1"), ("name", PyVal.str "a"), ("ordinal-position", PyVal.int 1)]]),
     ("objects", PyVal.list
        [PyVal.dict [("@uuid", PyVal.str "pk1"), ("columns", PyVal.list [PyVal.str "c1"])],
         exIdx2])]

def exM2 : UMap := collect_uuid_map exData2 (fun _ => Option.none)

def exCbi2 : String → Option PyVal := col_by_id_of exData2

/-- A table with a composite (two-column) primary key. -/
def exTable2b : PyVal :=
  PyVal.dict [("name", PyVal.str "t2"), ("columns", PyVal.list [PyVal.str "c2", PyVal.str "c3"]),
              ("primary-key", PyVal.str "pk2")]

def exData2b : PyVal :=
  PyVal.dict
    [("catalog", PyVal.dict [("tables", PyVal.list [exTable2b])]),
     ("all-table-columns", PyVal.list
        [PyVal.dict [("@uuid", PyVal.str "c2"), ("name", PyVal.str "x"), ("ordinal-position", PyVal.int 1)],
         PyVal.dict [("@uuid", PyVal.str "c3"), ("name", PyVal.str "y"), ("ordinal-position", PyVal.int 2)]]),
     ("objects", PyVal.list
        [PyVal.dict [("@uuid", PyVal.str "pk2"), ("columns", PyVal.list [PyVal.str "c2", PyVal.str "c3"])]])]

def exM2b : UMap := collect_uuid_map exData2b (fun _ => Option.none)

def exCbi2b : String → Option PyVal := col_by_id_of exData2b

/-- A self-referential foreign key whose only column-reference pair maps
a column to itself. -/
def exTable4 : PyVal := PyVal.dict [("name", PyVal.str "t")]

def exFk4 : PyVal :=
  PyVal.dict [("referenced-table", PyVal.dict [("name", PyVal.str "t")]),
              ("column-references", PyVal.list
                [PyVal.dict [("foreign-key-column", PyVal.str "c1"), ("primary-key-column", PyVal.str "c1")]])]

def exCbi4 : String → Option PyVal :=
  build_col_by_id [PyVal.dict [("@uuid", PyVal.str "c1"), ("name", PyVal.str "x")]]

def exM4 : UMap := fun _ => Option.none

/-- The spec's `Ref:` scenario: a foreign key from `orders.user_id` to
`users.id` with delete rule "cascade". -/
def exUsersT : PyVal :=
  PyVal.dict [("@uuid", PyVal.str "uT"), ("name", PyVal.str "users"),
              ("columns", PyVal.list [PyVal.str "cu1"])]

def exFk8 : PyVal :=
  PyVal.dict [("referenced-table", PyVal.str "uT"),
              ("column-references", PyVal.list
                [PyVal.dict [("foreign-key-column", PyVal.str "co1"), ("primary-key-column", PyVal.str "cu1")]]),
              ("delete-rule", PyVal.list [PyVal.str "ForeignKeyUpdateRule", PyVal.str "cascade"])]

def exOrdersT : PyVal :=
  PyVal.dict [("name", PyVal.str "orders"), ("columns", PyVal.list [PyVal.str "co1"]),
              ("foreign-keys", PyVal.list [exFk8])]

def exData8 : PyVal :=
  PyVal.dict
    [("catalog", PyVal.dict [("tables", PyVal.list [exUsersT, exOrdersT])]),
     ("all-table-columns", PyVal.list
        [PyVal.dict [("@uuid", PyVal.str "cu1"), ("name", PyVal.str "id"), ("ordinal-position", PyVal.int 1)],
         PyVal.dict [("@uuid", PyVal.str "co1"), ("name", PyVal.str "user_id"), ("ordinal-position", PyVal.int 1)]])]

def exM8 : UMap := collect_uuid_map exData8 (fun _ => Option.none)

def exCbi8 : String → Option PyVal := col_by_id_of exData8

/-- The full expected output for `exData8`. -/
def exOut8 : String :=
  "Table users \x7b\n  id varchar\n\x7d\n\nTable orders \x7b\n  user_id varchar\n\x7d\n\nRef: users.id > orders.user_id [delete: cascade]"

/-! Helper lemmas. -/

theorem applyW_nil (m : UMap) : applyW [] m = m := rfl

theorem applyW_append (ws1 ws2 : List (String × PyVal)) (m : UMap) :
    applyW (ws1 ++ ws2) m = applyW ws2 (applyW ws1 m) := by
  simp [applyW, List.foldl_append]

theorem selfIndexed_eq_applyW (kvs : List (String × PyVal)) (m : UMap) :
    selfIndexed kvs m = applyW (selfWrite kvs) m := by
  unfold selfIndexed selfWrite
  cases hg : pyGet (PyVal.dict kvs) "@uuid" with
  | none => rfl
  | some u =>
      cases u with
      | str s => by_cases hs : s = "" <;> simp [hs, applyW]
      | none => rfl
      | bool b => rfl
      | int n => rfl
      | list l => rfl
      | dict d => rfl

mutual
theorem collect_eq_applyW : ∀ (obj : PyVal) (m : UMap),
    collect_uuid_map obj m = applyW (uuidWrites obj) m
  | PyVal.dict kvs, m => by
      show collectVals kvs (selfIndexed kvs m) = applyW (selfWrite kvs ++ writesVals kvs) m
      rw [applyW_append, ← selfIndexed_eq_applyW]
      exact collectVals_eq_applyW kvs _
  | PyVal.list items, m => collectItems_eq_applyW items m
  | PyVal.none, _ => rfl
  | PyVal.bool _, _ => rfl
  | PyVal.int _, _ => rfl
  | PyVal.str _, _ => rfl

theorem collectItems_eq_applyW : ∀ (xs : List PyVal) (m : UMap),
    collectItems xs m = applyW (writesItems xs) m
  | [], _ => rfl
  | x :: xs, m => by
      show collectItems xs (collect_uuid_map x m) = applyW (uuidWrites x ++ writesItems xs) m
      rw [applyW_append, ← collect_eq_applyW x m]
      exact collectItems_eq_applyW xs _

theorem collectVals_eq_applyW : ∀ (kvs : List (String × PyVal)) (m : UMap),
    collectVals kvs m = applyW (writesVals kvs) m
  | [], _ => rfl
  | (_, v) :: kvs, m => by
      show collectVals kvs (collect_uuid_map v m) = applyW (uuidWrites v ++ writesVals kvs) m
      rw [applyW_append, ← collect_eq_applyW v m]
      exact collectVals_eq_applyW kvs _
end

theorem selfWrite_keys_ne (kvs : List (String × PyVal)) :
    (selfWrite kvs).all (fun p => p.1 != "") = true := by
  unfold selfWrite
  cases pyGet (PyVal.dict kvs) "@uuid" with
  | none => rfl
  | some u =>
      cases u with
      | str s => by_cases hs : s = "" <;> simp [hs]
      | none => rfl
      | bool b => rfl
      | int n => rfl
      | list l => rfl
      | dict d => rfl

mutual
theorem uuidWrites_keys_ne : ∀ (obj : PyVal),
    (uuidWrites obj).all (fun p => p.1 != "") = true
  | PyVal.dict kvs => by
      show (selfWrite kvs ++ writesVals kvs).all (fun p => p.1 != "") = true
      rw [List.all_append, selfWrite_keys_ne kvs, writesVals_keys_ne kvs]
      rfl
  | PyVal.list items => writesItems_keys_ne items
  | PyVal.none => rfl
  | PyVal.bool _ => rfl
  | PyVal.int _ => rfl
  | PyVal.str _ => rfl

theorem writesItems_keys_ne : ∀ (xs : List PyVal),
    (writesItems xs).all (fun p => p.1 != "") = true
  | [] => rfl
  | x :: xs => by
      show (uuidWrites x ++ writesItems xs).all (fun p => p.1 != "") = true
      rw [List.all_append, uuidWrites_keys_ne x, writesItems_keys_ne xs]
      rfl

theorem writesVals_keys_ne : ∀ (kvs : List (String × PyVal)),
    (writesVals kvs).all (fun p => p.1 != "") = true
  | [] => rfl
  | (_, v) :: kvs => by
      show (uuidWrites v ++ writesVals kvs).all (fun p => p.1 != "") = true
      rw [List.all_append, uuidWrites_keys_ne v, writesVals_keys_ne kvs]
      rfl
end

theorem applyW_lookup (ws : List (String × PyVal)) (m : UMap) (k : String) :
    applyW ws m k =
      (match ws.reverse.find? (fun p => p.1 == k) with
        | some p => some p.2
        | Option.none => m k) := by
  induction ws generalizing m with
  | nil => rfl
  | cons p ws ih =>
      have hstep : applyW (p :: ws) m = applyW ws (umUpdate m p.1 p.2) := rfl
      rw [hstep, ih, List.reverse_cons, List.find?_append]
      cases h : ws.reverse.find? (fun q => q.1 == k) with
      | some q => simp
      | none =>
          cases hpk : p.1 == k with
          | true =>
              have hk : k = p.1 := (eq_of_beq hpk).symm
              simp [List.find?, hpk, umUpdate, hk]
          | false =>
              have hk : ¬(k = p.1) := fun hh => by rw [hh] at hpk; simp at hpk
              simp [List.find?, hpk, umUpdate, hk]

theorem distinct_ordinals_pairwise (l : List PyVal) (h : distinct_ordinals l = true) :
    l.Pairwise (fun a b => colOrdinal a ≠ colOrdinal b) := by
  induction l with
  | nil => exact List.Pairwise.nil
  | cons c cs ih =>
      simp only [distinct_ordinals, Bool.and_eq_true] at h
      refine List.pairwise_cons.mpr ⟨?_, ih h.2⟩
      intro b hb
      have hb2 := List.all_eq_true.mp h.1 b hb
      simp only [bne_iff_ne, ne_eq] at hb2
      exact fun hc => hb2 hc.symm

/-- C7: the identifier index maps a string `k` to the body written by the
last dict node in traversal order whose `@uuid` field is `k` (falling
back to the initial map when no write carries `k`), visiting every
mapping and every sequence element of the tree; dict nodes with missing,
falsy or non-string identifier fields contribute no string-keyed write
and cause no error (every recorded write key is a non-empty string). -/
theorem C7_identifier_index_last_write (obj : PyVal) (m0 : UMap) (k : String) :
    collect_uuid_map obj m0 k =
      (match (uuidWrites obj).reverse.find? (fun p => p.1 == k) with
        | some p => some p.2
        | Option.none => m0 k)
    ∧ (uuidWrites obj).all (fun p => p.1 != "") = true :=
  ⟨by rw [collect_eq_applyW, applyW_lookup], uuidWrites_keys_ne obj⟩

/-- C1: with pairwise-distinct ordinal positions (the spec's invariant),
the sorted column list that drives column emission inside
`table_out_lines` is strictly ascending in ordinal position, and it is
unchanged under any permutation of the table's source column-identifier
sequence. -/
theorem C1_columns_sorted_by_ordinal (cbi : String → Option PyVal) (ids idsp : List PyVal)
    (hd : distinct_ordinals (resolved_cols ids cbi) = true)
    (hp : List.Perm ids idsp) :
    (sorted_cols ids cbi).Pairwise (fun a b => colOrdinal a < colOrdinal b)
    ∧ sorted_cols idsp cbi = sorted_cols ids cbi := by
  haveI : IsTotal PyVal (fun a b => colOrdinal a ≤ colOrdinal b) :=
    ⟨fun a b => Int.le_total _ _⟩
  haveI : IsTrans PyVal (fun a b => colOrdinal a ≤ colOrdinal b) :=
    ⟨fun _ _ _ h1 h2 => le_trans h1 h2⟩
  haveI : IsAntisymm PyVal (fun a b => colOrdinal a < colOrdinal b) :=
    ⟨fun _ _ h1 h2 => absurd (lt_trans h1 h2) (lt_irrefl _)⟩
  have hsymm : ∀ {x y : PyVal}, colOrdinal x ≠ colOrdinal y → colOrdinal y ≠ colOrdinal x :=
    fun h => h.symm
  have hr : List.Perm (resolved_cols ids cbi) (resolved_cols idsp cbi) :=
    List.Perm.filterMap _ hp
  have hne : (resolved_cols ids cbi).Pairwise (fun a b => colOrdinal a ≠ colOrdinal b) :=
    distinct_ordinals_pairwise _ hd
  have hperm1 : List.Perm (sorted_cols ids cbi) (resolved_cols ids cbi) :=
    List.perm_insertionSort _ _
  have hperm2 : List.Perm (sorted_cols idsp cbi) (resolved_cols idsp cbi) :=
    List.perm_insertionSort _ _
  have hs1 : (sorted_cols ids cbi).Pairwise (fun a b => colOrdinal a ≤ colOrdinal b) :=
    List.sorted_insertionSort _ _
  have hs2 : (sorted_cols idsp cbi).Pairwise (fun a b => colOrdinal a ≤ colOrdinal b) :=
    List.sorted_insertionSort _ _
  have hne1 : (sorted_cols ids cbi).Pairwise (fun a b => colOrdinal a ≠ colOrdinal b) :=
    (List.Perm.pairwise_iff hsymm hperm1).mpr hne
  have hne2 : (sorted_cols idsp cbi).Pairwise (fun a b => colOrdinal a ≠ colOrdinal b) :=
    (List.Perm.pairwise_iff hsymm hperm2).mpr ((List.Perm.pairwise_iff hsymm hr).mp hne)
  have hlt1 : (sorted_cols ids cbi).Pairwise (fun a b => colOrdinal a < colOrdinal b) :=
    (hs1.and hne1).imp (fun h => lt_of_le_of_ne h.1 h.2)
  have hlt2 : (sorted_cols idsp cbi).Pairwise (fun a b => colOrdinal a < colOrdinal b) :=
    (hs2.and hne2).imp (fun h => lt_of_le_of_ne h.1 h.2)
  refine ⟨hlt1, ?_⟩
  exact List.eq_of_perm_of_sorted (hperm2.trans (hr.symm.trans hperm1.symm)) hlt2 hlt1

/-- Witness for C1 at a concrete two-column table whose identifier list
is inverted relative to the ordinal order. -/
theorem C1_columns_sorted_by_ordinal_witness :
    distinct_ordinals (resolved_cols exIds1 exCbi1) = true
    ∧ ((sorted_cols exIds1 exCbi1).Pairwise (fun a b => colOrdinal a < colOrdinal b)
        ∧ sorted_cols exIds1r exCbi1 = sorted_cols exIds1 exCbi1) :=
  ⟨by decide, C1_columns_sorted_by_ordinal exCbi1 exIds1 exIds1r (by decide)
    (List.Perm.swap (PyVal.str "u2") (PyVal.str "u1") [])⟩

/-- C4: a foreign key whose referenced table name equals the owning
table's name and whose resolved local/referenced column names agree on
every column-reference pair emits no `Ref:` statement at all. -/
theorem C4_self_identity_fk_suppressed (t : PyVal) (m : UMap) (cbi : String → Option PyVal)
    (fk_entry : PyVal) (h : fk_self_identity t m cbi fk_entry = true) :
    fk_ref_lines t m cbi fk_entry = [] := by
  unfold fk_self_identity at h
  unfold fk_ref_lines
  cases hfk : fkResolve fk_entry m with
  | none => rfl
  | some fk =>
      rw [hfk] at h
      simp only [Bool.and_eq_true, List.all_eq_true] at h
      show (if (!truthy fk) = true then []
        else match fk with
          | PyVal.dict _ =>
              List.filterMap
                (cr_ref_line (tableName t) (fkRefTableName fk m)
                  (ruleVal fk "delete-rule") (ruleVal fk "update-rule") cbi)
                (unwrapSeq (getD fk "column-references" (PyVal.list [])))
          | _ => []) = []
      by_cases ht : truthy fk = true
      · rw [ht]
        cases fk with
        | dict kvs =>
            exact List.filterMap_eq_nil_iff.mpr (fun cr hcr => by
              unfold cr_ref_line
              by_cases h1 : (!truthy (crColName cbi cr "foreign-key-column")
                  || !truthy (crColName cbi cr "primary-key-column")) = true
              · simp [h1]
              · simp [h1, h.1, h.2 cr hcr])
        | none => rfl
        | bool b => rfl
        | int n => rfl
        | str s => rfl
        | list l => rfl
      · simp only [Bool.not_eq_true] at ht
        rw [ht]
        rfl

/-- Witness for C4 at a concrete self-referential foreign key. -/
theorem C4_self_identity_fk_suppressed_witness :
    fk_self_identity exTable4 exM4 exCbi4 exFk4 = true
    ∧ fk_ref_lines exTable4 exM4 exCbi4 exFk4 = [] :=
  ⟨by decide, C4_self_identity_fk_suppressed exTable4 exM4 exCbi4 exFk4 (by decide)⟩

/-- Counterexample for C6: the container unwrapper is not idempotent
(a tagged container whose payload is again a tagged container unwraps
differently the second time), and a null node is returned as `None`,
not as an empty sequence. -/
theorem C6_unwrap_counterexample :
    unwrap (unwrap (PyVal.list [PyVal.str "java.util.ArrayList",
        PyVal.list [PyVal.str "java.util.ArrayList", PyVal.list []]]))
      ≠ unwrap (PyVal.list [PyVal.str "java.util.ArrayList",
        PyVal.list [PyVal.str "java.util.ArrayList", PyVal.list []]])
    ∧ unwrap PyVal.none = PyVal.none := by
  refine ⟨?_, rfl⟩
  intro h
  have h1 : PyVal.list [] =
      PyVal.list [PyVal.str "java.util.ArrayList", PyVal.list []] := h
  injection h1 with h2
  exact List.noConfusion h2

/-- C6 as amended: unwrapping returns the payload of a tagged container
(2+-element sequence headed by a `java.util`-prefixed string), returns
every other node unchanged (`None` stays `None`; the call-site idiom
`unwrap(x) or []` is what turns falsy results into empty sequences), and
is idempotent whenever the extracted payload is not itself a tagged
container. -/
theorem C6_unwrap_amended (v x : PyVal) (s : String) (rest : List PyVal) :
    (strStartsWith s "java.util" = true →
      unwrap (PyVal.list (PyVal.str s :: x :: rest)) = x)
    ∧ (is_java_container v = false → unwrap v = v)
    ∧ (is_java_container (unwrap v) = false → unwrap (unwrap v) = unwrap v)
    ∧ unwrapSeq PyVal.none = [] := by
  have h2 : ∀ w, is_java_container w = false → unwrap w = w :=
    fun w hw => by simp [unwrap, hw]
  refine ⟨?_, h2 v, fun h => h2 (unwrap v) h, rfl⟩
  intro h
  simp [unwrap, is_java_container, h]

/-- Witness for C6 at a concrete tagged container. -/
theorem C6_unwrap_amended_witness :
    strStartsWith "java.util.ArrayList" "java.util" = true
    ∧ unwrap (PyVal.list [PyVal.str "java.util.ArrayList", PyVal.str "x"]) = PyVal.str "x" :=
  ⟨by decide,
    (C6_unwrap_amended PyVal.none (PyVal.str "x") "java.util.ArrayList" []).1 (by decide)⟩

/-- Counterexample for C5: the resolver consults the generic `name`
field before the database-specific one, and never consults a
local/dialect (`local-type-name`) or standard type name field. -/
theorem C5_resolve_datatype_counterexample :
    resolve_datatype
        (PyVal.dict [("database-specific-type-name", PyVal.str "D"), ("name", PyVal.str "N")])
        (fun _ => Option.none) = PyVal.str "N"
    ∧ resolve_datatype (PyVal.dict [("local-type-name", PyVal.str "L")]) (fun _ => Option.none)
        = PyVal.str "varchar"
    ∧ ("N" : String) ≠ "D" ∧ ("varchar" : String) ≠ "L" :=
  ⟨rfl, rfl, by decide, by decide⟩

/-- C5 as amended: the resolver returns the first truthy field among
`name`, `database-specific-type-name`, `full-name` of the inline dict
(or of the object an identifier resolves to, when that object is
truthy), and `"varchar"` for null input, an unresolved identifier, or a
falsy resolved object; it is a total function and never raises. -/
theorem C5_resolve_datatype_amended (m : UMap) (kvs okvs : List (String × PyVal)) (s : String) :
    resolve_datatype PyVal.none m = PyVal.str "varchar"
    ∧ (truthy (getN (PyVal.dict kvs) "name") = true →
        resolve_datatype (PyVal.dict kvs) m = getN (PyVal.dict kvs) "name")
    ∧ (truthy (getN (PyVal.dict kvs) "name") = false →
       truthy (getN (PyVal.dict kvs) "database-specific-type-name") = true →
        resolve_datatype (PyVal.dict kvs) m = getN (PyVal.dict kvs) "database-specific-type-name")
    ∧ (truthy (getN (PyVal.dict kvs) "name") = false →
       truthy (getN (PyVal.dict kvs) "database-specific-type-name") = false →
       truthy (getN (PyVal.dict kvs) "full-name") = true →
        resolve_datatype (PyVal.dict kvs) m = getN (PyVal.dict kvs) "full-name")
    ∧ (truthy (getN (PyVal.dict kvs) "name") = false →
       truthy (getN (PyVal.dict kvs) "database-specific-type-name") = false →
       truthy (getN (PyVal.dict kvs) "full-name") = false →
        resolve_datatype (PyVal.dict kvs) m = PyVal.str "varchar")
    ∧ (m s = Option.none → resolve_datatype (PyVal.str s) m = PyVal.str "varchar")
    ∧ (∀ o, m s = some o → truthy o = false →
        resolve_datatype (PyVal.str s) m = PyVal.str "varchar")
    ∧ (m s = some (PyVal.dict okvs) → truthy (PyVal.dict okvs) = true →
        resolve_datatype (PyVal.str s) m = resolve_datatype (PyVal.dict okvs) m) := by
  refine ⟨rfl, ?_, ?_, ?_, ?_, ?_, ?_, ?_⟩
  · intro h1
    simp [resolve_datatype, pyOr, h1]
  · intro h1 h2
    simp [resolve_datatype, pyOr, h1, h2]
  · intro h1 h2 h3
    simp [resolve_datatype, pyOr, h1, h2, h3]
  · intro h1 h2 h3
    simp [resolve_datatype, pyOr, h1, h2, h3]
  · intro h1
    simp [resolve_datatype, h1]
  · intro o h1 h2
    simp [resolve_datatype, h1, h2]
  · intro h1 h2
    simp [resolve_datatype, h1, h2]

/-- Witness for C5: a type dict carrying only the database-specific
field resolves to it. -/
theorem C5_resolve_datatype_amended_witness :
    truthy (getN (PyVal.dict [("database-specific-type-name", PyVal.str "D")]) "name") = false
    ∧ truthy (getN (PyVal.dict [("database-specific-type-name", PyVal.str "D")])
        "database-specific-type-name") = true
    ∧ resolve_datatype (PyVal.dict [("database-specific-type-name", PyVal.str "D")])
        (fun _ => Option.none)
      = getN (PyVal.dict [("database-specific-type-name", PyVal.str "D")])
          "database-specific-type-name" :=
  ⟨by decide, by decide,
    (C5_resolve_datatype_amended (fun _ => Option.none)
      [("database-specific-type-name", PyVal.str "D")] [] "x").2.2.1 (by decide) (by decide)⟩

/-- C10: a column line carries a `default:` attribute exactly when the
column's default value is neither null nor the empty string, and the
attribute wraps the value (newlines replaced by spaces) in backticks
verbatim; the attribute cell sits in the fixed attribute order of
`column_attrs`. -/
theorem C10_default_attribute (c : PyVal) (pk : List PyVal) (s : String) :
    (default_attr c = [] ↔
      (getN c "default-value" = PyVal.none ∨ getN c "default-value" = PyVal.str ""))
    ∧ (getN c "default-value" = PyVal.str s → s ≠ "" →
        default_attr c = ["default: `" ++ strReplaceChar s '\n' " " ++ "`"])
    ∧ column_attrs c pk =
        (if pyListContains pk (getN c "name") && pk.length == 1 then ["pk"] else []) ++
        (if !truthy (getD c "nullable" (PyVal.bool true)) then ["not null"] else []) ++
        (if truthy (getD c "part-of-unique-index" (PyVal.bool false))
            && !pyListContains pk (getN c "name") then ["unique"] else []) ++
        default_attr c ++ note_attr c := by
  refine ⟨?_, ?_, rfl⟩
  · unfold default_attr format_default
    cases hv : getN c "default-value" with
    | none => simp
    | str t => by_cases ht : t = "" <;> simp [ht, pyEq]
    | bool b => simp [pyEq]
    | int n => simp [pyEq]
    | list l => simp [pyEq, pyEqList]
    | dict d => simp [pyEq, pyEqDict]
  · intro hv hs
    unfold default_attr format_default
    rw [hv]
    have hbe : (s == "") = false := by simp [hs]
    show (match (if (s == "") = true then Option.none
        else some ("`" ++ strReplaceChar (pyStr (PyVal.str s)) '\n' " " ++ "`")) with
      | some d => ["default: " ++ d]
      | Option.none => []) = _
    rw [hbe]
    show ["default: " ++ ("`" ++ strReplaceChar s '\n' " " ++ "`")] = _
    rw [← String.append_assoc, ← String.append_assoc]
    rfl

/-- Witness for C10 at a column whose default expression contains a
newline. -/
theorem C10_default_attribute_witness :
    getN (PyVal.dict [("default-value", PyVal.str "a\nb")]) "default-value" = PyVal.str "a\nb"
    ∧ ("a\nb" : String) ≠ ""
    ∧ default_attr (PyVal.dict [("default-value", PyVal.str "a\nb")]) = ["default: `a b`"] := by
  refine ⟨rfl, by decide, ?_⟩
  have h := (C10_default_attribute (PyVal.dict [("default-value", PyVal.str "a\nb")]) [] "a\nb").2.1
    rfl (by decide)
  exact h.trans (by decide)

/-- Counterexample for C2: `exTable2` has a single-column primary key
(one column identifier, resolving to column name `a`), yet the table's
`indexes` block carries an entry for exactly that column combination —
contributed by the distinct unique index `i1` over the same column. -/
theorem C2_single_pk_counterexample :
    (pkColIdsOf exTable2 exM2).length = 1
    ∧ pkCols exTable2 exM2 exCbi2 = [PyVal.str "a"]
    ∧ index_lines exTable2 exM2 exCbi2 = ["  (a) [unique]"] :=
  ⟨by decide, rfl, by decide⟩

/-- C2 as amended: a primary key with at most one column identifier
never produces a `pk`-marked `indexes` entry, a composite (two or more
identifiers) primary key always produces exactly its `pk`-marked entry,
and every other `indexes` entry carries the `[unique]` marker (so a
distinct unique index over the single primary-key column may still put
an entry for that combination into the block). -/
theorem C2_pk_index_amended (t : PyVal) (m : UMap) (cbi : String → Option PyVal) :
    ((pkColIdsOf t m).length ≤ 1 → pk_index_lines t m cbi = [])
    ∧ (1 < (pkColIdsOf t m).length →
        pk_index_lines t m cbi =
          ["  (" ++ String.intercalate ", "
              ((pkCols t m cbi).map (fun n => sanitize_identifier (asStrOpt n))) ++ ") [pk]"])
    ∧ (∀ line ∈ unique_index_lines t m cbi, ∃ u, line = u ++ ") [unique]") := by
  refine ⟨?_, ?_, ?_⟩
  · intro hlen
    unfold pk_index_lines
    cases hpk : pkObjOf t m with
    | none => rfl
    | some pk =>
        have h2 : ¬ (1 < (pkColIdsOf t m).length) := by omega
        simp [h2]
  · intro hlen
    unfold pk_index_lines
    cases hpk : pkObjOf t m with
    | none =>
        unfold pkColIdsOf at hlen
        rw [hpk] at hlen
        simp at hlen
    | some pk =>
        simp only [hlen, if_true]
        unfold pkCols
        rfl
  · intro line hline
    unfold unique_index_lines at hline
    obtain ⟨idx, hidx, heq⟩ := List.mem_filterMap.mp hline
    unfold unique_index_line at heq
    by_cases h1 : pyEq (getN idx "@uuid") (getN t "primary-key") = true
    · rw [if_pos h1] at heq
      exact Option.noConfusion heq
    · rw [if_neg h1] at heq
      by_cases h2 : (!truthy (getD idx "unique" (PyVal.bool false))) = true
      · rw [if_pos h2] at heq
        exact Option.noConfusion heq
      · rw [if_neg h2] at heq
        cases hX : unwrapSeq (getD idx "columns" (PyVal.list [])) with
        | nil =>
            rw [hX] at heq
            exact Option.noConfusion heq
        | cons a as =>
            rw [hX] at heq
            exact ⟨_, (Option.some.inj heq).symm⟩

/-- Witness for C2 at the composite-key table `exTable2b`. -/
theorem C2_pk_index_amended_witness :
    1 < (pkColIdsOf exTable2b exM2b).length
    ∧ pk_index_lines exTable2b exM2b exCbi2b = ["  (x, y) [pk]"] := by
  refine ⟨by decide, ?_⟩
  have h := (C2_pk_index_amended exTable2b exM2b exCbi2b).2.1 (by decide)
  exact h.trans (by decide)

/-- Counterexample for C3: the unique index `i1` of `exData2` has
exactly the column-identifier set of the single-column primary key
(both are `["c1"]`, i.e. the index is fully covered by the key), yet it
is still emitted as an `indexes` entry. -/
theorem C3_unique_index_counterexample :
    pkColIdsOf exTable2 exM2 = [PyVal.str "c1"]
    ∧ index_entries exTable2 exM2 = [exIdx2]
    ∧ unwrapSeq (getD exIdx2 "columns" (PyVal.list [])) = [PyVal.str "c1"]
    ∧ truthy (getD exIdx2 "unique" (PyVal.bool false)) = true
    ∧ unique_index_lines exTable2 exM2 exCbi2 = ["  (a) [unique]"] :=
  ⟨rfl, rfl, rfl, rfl, by decide⟩

/-- C3 as amended: the `indexes` entries from the constraint list are
exactly the resolvable `MutableIndex` objects, and such an object
contributes an entry iff its `@uuid` differs from the table's
primary-key reference, its `unique` flag is truthy, and its unwrapped
column-identifier list is non-empty; every non-unique index is dropped,
but coverage by a single-column primary key does not suppress an entry. -/
theorem C3_unique_index_amended (t : PyVal) (m : UMap) (cbi : String → Option PyVal)
    (pk_id idx : PyVal) :
    unique_index_lines t m cbi =
      (index_entries t m).filterMap (unique_index_line (getN t "primary-key") cbi)
    ∧ ((unique_index_line pk_id cbi idx).isSome = true ↔
        (pyEq (getN idx "@uuid") pk_id = false
         ∧ truthy (getD idx "unique" (PyVal.bool false)) = true
         ∧ (unwrapSeq (getD idx "columns" (PyVal.list []))).isEmpty = false)) := by
  refine ⟨rfl, ?_⟩
  unfold unique_index_line
  cases h1 : pyEq (getN idx "@uuid") pk_id <;>
    cases h2 : truthy (getD idx "unique" (PyVal.bool false)) <;>
      cases h3 : (unwrapSeq (getD idx "columns" (PyVal.list []))).isEmpty <;>
        simp [h1, h2, h3]

/-- Witness for C3: a unique index not matching the primary-key
reference and with a non-empty column list is emitted. -/
theorem C3_unique_index_amended_witness :
    (pyEq (getN exIdx2 "@uuid") (PyVal.str "other") = false
     ∧ truthy (getD exIdx2 "unique" (PyVal.bool false)) = true
     ∧ (unwrapSeq (getD exIdx2 "columns" (PyVal.list []))).isEmpty = false)
    ∧ (unique_index_line (PyVal.str "other") exCbi2 exIdx2).isSome = true :=
  ⟨by decide,
    ((C3_unique_index_amended exTable2 exM2 exCbi2 (PyVal.str "other") exIdx2).2).mpr
      (by decide)⟩

theorem append_bracket_ne_empty (x : String) : (" [" ++ x) ++ "]" ≠ "" := by
  intro h
  have h2 := congrArg String.data h
  rw [String.data_append] at h2
  exact absurd (List.append_eq_nil.mp h2).2 (by decide)

/-- C8: every emitted relationship is a line of the exact form
`Ref: <ref_table>.<ref_col> > <table>.<local_col>` followed by the
optional rule suffix; the suffix is empty exactly when neither rule is
truthy and otherwise lists `delete:`/`update:` in that order; the whole
document places all `Ref:` lines after all table-block lines; and the
cascade scenario emits exactly
`Ref: users.id > orders.user_id [delete: cascade]`. -/
theorem C8_ref_statement_form :
    (∀ data, convert_to_dbml data =
      String.intercalate "\n" (dbml_out_lines data ++ dbml_ref_lines data))
    ∧ (∀ t m cbi fk_entry line, line ∈ fk_ref_lines t m cbi fk_entry →
        ∃ rt pc tn fc dr ur,
          line = "Ref: " ++ sanitize_identifier (asStrOpt rt) ++ "." ++
            sanitize_identifier (asStrOpt pc) ++ " > " ++
            sanitize_identifier (asStrOpt tn) ++ "." ++
            sanitize_identifier (asStrOpt fc) ++ rule_opt_str dr ur)
    ∧ (∀ dr ur,
        (rule_opt_str dr ur = "" ↔ (truthy dr = false ∧ truthy ur = false))
        ∧ (truthy dr = true → truthy ur = false →
            rule_opt_str dr ur = " [" ++ ("delete: " ++ pyStr dr) ++ "]")
        ∧ (truthy dr = false → truthy ur = true →
            rule_opt_str dr ur = " [" ++ ("update: " ++ pyStr ur) ++ "]")
        ∧ (truthy dr = true → truthy ur = true →
            rule_opt_str dr ur =
              " [" ++ ((("delete: " ++ pyStr dr) ++ ", ") ++ ("update: " ++ pyStr ur)) ++ "]"))
    ∧ convert_to_dbml exData8 = exOut8 := by
  refine ⟨fun data => rfl, ?_, ?_, by decide⟩
  · intro t m cbi fk_entry line hline
    unfold fk_ref_lines at hline
    cases hf : fkResolve fk_entry m with
    | none =>
        rw [hf] at hline
        exact absurd hline (List.not_mem_nil line)
    | some fk =>
        rw [hf] at hline
        revert hline
        show line ∈ (if (!truthy fk) = true then []
          else match fk with
            | PyVal.dict _ =>
                List.filterMap
                  (cr_ref_line (tableName t) (fkRefTableName fk m)
                    (ruleVal fk "delete-rule") (ruleVal fk "update-rule") cbi)
                  (unwrapSeq (getD fk "column-references" (PyVal.list [])))
            | _ => []) → _
        intro hline
        by_cases ht : truthy fk = true
        · rw [ht] at hline
          cases fk with
          | dict kvs =>
              obtain ⟨cr, hcr, heq⟩ := List.mem_filterMap.mp hline
              unfold cr_ref_line at heq
              by_cases h1 : (!truthy (crColName cbi cr "foreign-key-column")
                  || !truthy (crColName cbi cr "primary-key-column")) = true
              · rw [if_pos h1] at heq
                exact Option.noConfusion heq
              · rw [if_neg h1] at heq
                by_cases h2 : (pyEq (fkRefTableName (PyVal.dict kvs) m) (tableName t)
                    && pyEq (crColName cbi cr "primary-key-column")
                        (crColName cbi cr "foreign-key-column")) = true
                · rw [if_pos h2] at heq
                  exact Option.noConfusion heq
                · rw [if_neg h2] at heq
                  exact ⟨_, _, _, _, _, _, (Option.some.inj heq).symm⟩
          | none => exact absurd hline (List.not_mem_nil line)
          | bool b => exact absurd hline (List.not_mem_nil line)
          | int n => exact absurd hline (List.not_mem_nil line)
          | str s => exact absurd hline (List.not_mem_nil line)
          | list l => exact absurd hline (List.not_mem_nil line)
        · simp only [Bool.not_eq_true] at ht
          rw [ht] at hline
          exact absurd hline (List.not_mem_nil line)
  · intro dr ur
    cases hd : truthy dr <;> cases hu : truthy ur
    · refine ⟨⟨fun _ => ⟨rfl, rfl⟩, fun _ => ?_⟩,
        fun h _ => absurd h (by decide),
        fun _ h => absurd h (by decide),
        fun h _ => absurd h (by decide)⟩
      unfold rule_opt_str
      rw [hd, hu]
      rfl
    · refine ⟨⟨fun h => ?_, fun h => absurd h.2 (by decide)⟩,
        fun h _ => absurd h (by decide),
        fun _ _ => ?_,
        fun h _ => absurd h (by decide)⟩
      · refine absurd (show ((" [" ++ ("update: " ++ pyStr ur)) ++ "]" : String) = "" from ?_)
          (append_bracket_ne_empty _)
        unfold rule_opt_str at h
        rw [hd, hu] at h
        exact h
      · unfold rule_opt_str
        rw [hd, hu]
        rfl
    · refine ⟨⟨fun h => ?_, fun h => absurd h.1 (by decide)⟩,
        fun _ _ => ?_,
        fun h _ => absurd h (by decide),
        fun _ h => absurd h (by decide)⟩
      · refine absurd (show ((" [" ++ ("delete: " ++ pyStr dr)) ++ "]" : String) = "" from ?_)
          (append_bracket_ne_empty _)
        unfold rule_opt_str at h
        rw [hd, hu] at h
        exact h
      · unfold rule_opt_str
        rw [hd, hu]
        rfl
    · refine ⟨⟨fun h => ?_, fun h => absurd h.1 (by decide)⟩,
        fun _ h => absurd h (by decide),
        fun h _ => absurd h (by decide),
        fun _ _ => ?_⟩
      · refine absurd
          (show ((" [" ++ ((("delete: " ++ pyStr dr) ++ ", ") ++ ("update: " ++ pyStr ur))) ++ "]"
            : String) = "" from ?_)
          (append_bracket_ne_empty _)
        unfold rule_opt_str at h
        rw [hd, hu] at h
        exact h
      · unfold rule_opt_str
        rw [hd, hu]
        rfl

/-- Witness for C8: the scenario's emitted line is in the foreign key's
line list and has the stated `Ref:` shape. -/
theorem C8_ref_statement_form_witness :
    ("Ref: users.id > orders.user_id [delete: cascade]"
        ∈ fk_ref_lines exOrdersT exM8 exCbi8 exFk8)
    ∧ (∃ rt pc tn fc dr ur,
        "Ref: users.id > orders.user_id [delete: cascade]"
          = "Ref: " ++ sanitize_identifier (asStrOpt rt) ++ "." ++
            sanitize_identifier (asStrOpt pc) ++ " > " ++
            sanitize_identifier (asStrOpt tn) ++ "." ++
            sanitize_identifier (asStrOpt fc) ++ rule_opt_str dr ur) :=
  ⟨by decide,
    C8_ref_statement_form.2.1 exOrdersT exM8 exCbi8 exFk8
      "Ref: users.id > orders.user_id [delete: cascade]" (by decide)⟩

/-- Counterexample for C9: the name `"a\n"` contains a character that is
outside the allowed identifier classes, yet the sanitizer emits it
unquoted — Python's `$` anchor also matches just before a single
trailing newline. -/
theorem C9_sanitize_counterexample :
    sanitize_identifier (some "a\n") = "a\n"
    ∧ ('\n' ∈ "a\n".data)
    ∧ isIdentChar '\n' = false ∧ isIdentStart '\n' = false :=
  ⟨by decide, by decide, by decide, by decide⟩

/-- C9 as amended: a name accepted by the source's anchored regex —
i.e. `[A-Za-z_][A-Za-z0-9_]*` optionally followed by one trailing
newline — is emitted verbatim, and every other name (in particular any
name containing a space, hyphen, dot, or other disallowed character
elsewhere) is wrapped in backticks; the same sanitizer output is what
the table header and every column line embed. -/
theorem C9_sanitize_amended (s : String) (t : PyVal) (m : UMap)
    (cbi : String → Option PyVal) (c : PyVal) (pk : List PyVal) :
    (identRegexMatches s = true → sanitize_identifier (some s) = s)
    ∧ (identRegexMatches s = false → sanitize_identifier (some s) = "`" ++ s ++ "`")
    ∧ (identCore s = true → identRegexMatches s = true)
    ∧ (table_out_lines t m cbi).head? =
        some ("Table " ++ sanitize_identifier (asStrOpt (tableName t)) ++ " \x7b")
    ∧ column_line c pk m =
        "  " ++ sanitize_identifier (asStrOpt (getN c "name")) ++ " " ++
          pyStr (pyOr (resolve_datatype (getN c "column-data-type") m) (PyVal.str "varchar")) ++
          (if (column_attrs c pk).isEmpty then ""
            else " [" ++ String.intercalate ", " (column_attrs c pk) ++ "]") := by
  refine ⟨?_, ?_, ?_, ?_, rfl⟩
  · intro h
    simp [sanitize_identifier, h]
  · intro h
    simp [sanitize_identifier, h]
  · intro h
    simp [identRegexMatches, h]
  · simp [table_out_lines]

/-- Witness for C9 at a name containing a space. -/
theorem C9_sanitize_amended_witness :
    identRegexMatches "my col" = false
    ∧ sanitize_identifier (some "my col") = "`" ++ "my col" ++ "`" :=
  ⟨by decide,
    (C9_sanitize_amended "my col" PyVal.none (fun _ => Option.none)
      (fun _ => Option.none) PyVal.none []).2.1 (by decide)⟩
